import Mathlib
set_option maxHeartbeats 1000000

/-!
# Verification of `vn_lunar_calendar` against its specification

Shallow embedding of the Python sources of `vn_lunar_calendar`
(`utils.py`, `converter.py`, `solar.py`, `solar_terms.py`, `lucky_hours.py`,
`constants.py`) as Lean definitions, together with theorems settling the
frozen claims about the library.

Conventions of the embedding:
* Python integers are `Int`.  All `//` and `%` in the embedded code occur
  with positive literal divisors (12, 5, 4, 100, 400, 146097, 1461, 153, 10,
  6); for a positive divisor Python's floor division and floor modulus
  coincide with `Int`'s `/` (`Int.ediv`) and `%` (`Int.emod`), which we use.
* The floating-point astronomical primitives (`new_moon`, `sun_longitude`,
  and the `int(...)` truncations of float expressions that produce lunation
  indices and day numbers) cannot be evaluated in a shallow integer
  embedding; they are abstracted as a record `Astro` of integer-valued
  oracle functions, and theorems about code paths that consume them hold
  for *every* oracle.
* The year-code table (module `vn_lunar_calendar.data`, absent from the
  sources provided) is a parameter of type `Table`; `none` models the
  `ValueError` it raises for an uncovered year.
* A raised `DateNotExistError` is embedded as `Except.error ()` (the code
  paths studied distinguish only whether the error is raised, not its
  message); a Python `None` result is `Option.none`.
-/

/-! ## `utils.py`: Julian Day Number arithmetic -/

/-- `utils.jd_from_date(dd, mm, yy)`: Gregorian date to Julian Day Number;
recomputed with the Julian-calendar formula when the Gregorian value would
precede the reform boundary JDN 2299161. -/
def jd_from_date (dd mm yy : Int) : Int :=
  let a := (14 - mm) / 12
  let y := yy + 4800 - a
  let m := mm + 12 * a - 3
  let jd := dd + (153 * m + 2) / 5 + 365 * y + y / 4 - y / 100 + y / 400 - 32045
  if jd < 2299161 then
    dd + (153 * m + 2) / 5 + 365 * y + y / 4 - 32083
  else
    jd

/-- The straight-line tail of `utils.jd_to_date` shared by both calendar
branches (everything after `b` and `c` are fixed). -/
def jd_to_date_tail (b c : Int) : Int × Int × Int :=
  let d := (4 * c + 3) / 1461
  let e := c - (1461 * d) / 4
  let m := (5 * e + 2) / 153
  let day := e - (153 * m + 2) / 5 + 1
  let month := m + 3 - 12 * (m / 10)
  let year := b * 100 + d - 4800 + m / 10
  (day, month, year)

/-- `utils.jd_to_date(jd)`: Julian Day Number to Gregorian date, branching
to the Julian-calendar formula for `jd ≤ 2299160`. -/
def jd_to_date (jd : Int) : Int × Int × Int :=
  if jd > 2299160 then
    let a := jd + 32044
    let b := (4 * a + 3) / 146097
    let c := a - (b * 146097) / 4
    jd_to_date_tail b c
  else
    jd_to_date_tail 0 (jd + 32082)

/-! ## `solar.py`: date validity -/

/-- `solar.SolarDate.is_leap_year(year)`. -/
def is_leap_year (year : Int) : Bool :=
  (year % 4 == 0 && year % 100 != 0) || year % 400 == 0

/-- `solar.SolarDate.is_valid(day, month, year)`: the library's sole
Gregorian-date validation point. -/
def is_valid_solar (day month year : Int) : Bool :=
  if month < 1 ∨ month > 12 then false
  else if day < 1 then false
  else
    let days_in_month : List Int :=
      [0, 31, if is_leap_year year then 29 else 28, 31, 30, 31, 30, 31, 31, 30, 31, 30, 31]
    decide (day ≤ days_in_month.getD month.toNat 0)


/-! ## `converter.py`: the conversion engine

The year-code table lives in `vn_lunar_calendar.data`, a module that is not
among the provided sources; only its caller `converter._get_lunar_year_data`
is. It is therefore modelled from the spec as a parameter. -/

/-- Modelled from the spec: `data.get_year_code(year)` (module
`vn_lunar_calendar.data`, absent from the sources). Per spec section 4.3 it
returns the packed year code for each year the table covers and raises
(`ValueError`, caught by `_get_lunar_year_data`) outside the covered span;
`none` models the raise. The spec does not list the table's values, so the
table is kept abstract. -/
def Table := Int → Option Nat

/-- `converter.LunarMonthInfo` dataclass. -/
structure LunarMonthInfo where
  month : Int
  days : Int
  is_leap : Bool
  jd_start : Int
deriving DecidableEq

/-- Length of ordinary month `m` (1-12) decoded from the year code: the
source loop `reg_month_lens[11 - i] = 30 if (j & 1) else 29; j >>= 1` over
`j = year_code >> 4` assigns month `m` the bit `16 - m` of the code. -/
def reg_month_len (year_code : Nat) (m : Nat) : Int :=
  if (year_code >>> (16 - m)) &&& 1 = 1 then 30 else 29

/-- The month-building loop of `converter._get_lunar_year_data`: for each
`m` in calendar order append the regular month, advance the running JDN,
and insert the leap month right after month `leap_idx`. -/
def build_months (leap_idx : Nat) (leap_len : Int) (len_of : Nat → Int) :
    List Nat → Int → List LunarMonthInfo
  | [], _ => []
  | m :: rest, current_jd =>
    let days := len_of m
    if m = leap_idx then
      ⟨(m : Int), days, false, current_jd⟩ ::
        ⟨(m : Int), leap_len, true, current_jd + days⟩ ::
          build_months leap_idx leap_len len_of rest (current_jd + days + leap_len)
    else
      ⟨(m : Int), days, false, current_jd⟩ ::
        build_months leap_idx leap_len len_of rest (current_jd + days)

/-- `converter._get_lunar_year_data(year)`: decode the year code into
`(jd_tet, months)`; a missing table entry (the `ValueError` path) yields
`(0, [])`. -/
def _get_lunar_year_data (tbl : Table) (year : Int) : Int × List LunarMonthInfo :=
  match tbl year with
  | none => (0, [])
  | some year_code =>
    let offset_tet : Int := ((year_code >>> 17 : Nat) : Int)
    let jd_tet := jd_from_date 1 1 year + offset_tet
    let leap_month_idx := year_code &&& 15
    let leap_month_len : Int := if (year_code >>> 16) &&& 1 = 1 then 30 else 29
    (jd_tet,
      build_months leap_month_idx leap_month_len (reg_month_len year_code)
        [1, 2, 3, 4, 5, 6, 7, 8, 9, 10, 11, 12] jd_tet)

/-- `converter._solar_to_lunar_lookup(dd, mm, yy)`: scan the decoded months
in reverse chronological order for the last month starting on or before the
day; `none` triggers the astronomical fallback. -/
def _solar_to_lunar_lookup (tbl : Table) (dd mm yy : Int) :
    Option (Int × Int × Int × Bool) :=
  let day_jd := jd_from_date dd mm yy
  let p := _get_lunar_year_data tbl yy
  let ml : List LunarMonthInfo × Int :=
    if day_jd < p.1 then ((_get_lunar_year_data tbl (yy - 1)).2, yy - 1)
    else (p.2, yy)
  match ml.1.reverse.find? (fun m => decide (day_jd ≥ m.jd_start)) with
  | some m => some (day_jd - m.jd_start + 1, m.month, ml.2, m.is_leap)
  | none => none

/-- `converter._lunar_to_solar_lookup(dd, mm, yy, leap)`. The source wraps
its `_get_lunar_year_data` call in `try/except ValueError: return None`, but
`_get_lunar_year_data` already catches that `ValueError` itself and returns
`(0, [])`, so the handler is dead code and this function never returns the
Python `None` (here `Option.none`): for a year missing from the table the
month list is empty, the loop matches nothing, and the function raises
`DateNotExistError` (here `some (Except.error ())`). -/
def _lunar_to_solar_lookup (tbl : Table) (dd mm yy : Int) (leap : Bool) :
    Option (Except Unit (Int × Int × Int)) :=
  let months := (_get_lunar_year_data tbl yy).2
  match months.find? (fun m => m.month == mm && m.is_leap == leap) with
  | some m =>
    if dd > m.days then some (Except.error ())
    else some (Except.ok (jd_to_date (m.jd_start + dd - 1)))
  | none => some (Except.error ())

/-- Integer-valued oracles abstracting the floating-point astronomical
primitives of `utils.py` at a fixed timezone:
* `nmDay k` models `get_new_moon_day(k, timezone)`;
* `sunSeg day` models `get_sun_longitude(day, timezone)` (an integer
  segment, 0-11 per the source's contract);
* `kOff x` models `int((x - 2415021.076998695) / 29.530588853)`;
* `kOffHalf x` models `int((x - 2415021.076998695) / 29.530588853 + 0.5)`;
* `kSyn x` models `int(x / 29.530588853)`.
The float computations inside them cannot be evaluated in an integer
embedding; theorems about the paths consuming them hold for every oracle. -/
structure Astro where
  nmDay : Int → Int
  sunSeg : Int → Int
  kOff : Int → Int
  kOffHalf : Int → Int
  kSyn : Int → Int

/-- `converter.get_lunar_month_11(year, timezone)`. -/
def get_lunar_month_11 (A : Astro) (year : Int) : Int :=
  let off := jd_from_date 31 12 year - 2415021
  let k := A.kSyn off
  let nm := A.nmDay k
  if A.sunSeg nm ≥ 9 then A.nmDay (k - 1) else nm

/-- The `while i < 14` search loop of `converter.get_leap_month_offset`. -/
def leap_offset_loop (A : Astro) (k last : Int) (i : Nat) : Int :=
  if i < 14 then
    let arc := A.sunSeg (A.nmDay (k + (i : Int)))
    if 1 < i ∧ arc = last then (i : Int) - 1
    else leap_offset_loop A k arc (i + 1)
  else 0
termination_by 14 - i

/-- `converter.get_leap_month_offset(a11, timezone)`. -/
def get_leap_month_offset (A : Astro) (a11 : Int) : Int :=
  let k := A.kOffHalf a11
  leap_offset_loop A k (A.sunSeg (A.nmDay k)) 1

/-- `converter._solar_to_lunar_astro(dd, mm, yy, timezone)`. The Python
`int((month_start - a11) / 29)` truncates a float quotient toward zero,
which on an integer numerator equals `Int.tdiv`: an exact multiple of 29
divides exactly in IEEE arithmetic, and any other quotient lies at least
1/29 away from an integer, far beyond double rounding error. -/
def _solar_to_lunar_astro (A : Astro) (dd mm yy : Int) : Int × Int × Int × Bool :=
  let day_number := jd_from_date dd mm yy
  let k := A.kOff day_number
  let ms0 := A.nmDay (k + 1)
  let month_start := if ms0 > day_number then A.nmDay k else ms0
  let a11i := get_lunar_month_11 A yy
  let lunar_year0 := if a11i ≥ month_start then yy else yy + 1
  let a11 := if a11i ≥ month_start then get_lunar_month_11 A (yy - 1) else a11i
  let b11 := if a11i ≥ month_start then a11i else get_lunar_month_11 A (yy + 1)
  let lunar_day := day_number - month_start + 1
  let diff := Int.tdiv (month_start - a11) 29
  let ml : Int × Bool :=
    if b11 - a11 > 365 then
      let leap_month_diff := get_leap_month_offset A a11
      if diff ≥ leap_month_diff then (diff + 10, diff == leap_month_diff)
      else (diff + 11, false)
    else (diff + 11, false)
  let lunar_month := if ml.1 > 12 then ml.1 - 12 else ml.1
  let lunar_year := if lunar_month ≥ 11 ∧ diff < 4 then lunar_year0 - 1 else lunar_year0
  (lunar_day, lunar_month, lunar_year, ml.2)

/-- `converter._lunar_to_solar_astro(dd, mm, yy, leap, timezone)`. -/
def _lunar_to_solar_astro (A : Astro) (dd mm yy : Int) (leap : Bool) :
    Except Unit (Int × Int × Int) :=
  let a11 := if mm < 11 then get_lunar_month_11 A (yy - 1) else get_lunar_month_11 A yy
  let b11 := if mm < 11 then get_lunar_month_11 A yy else get_lunar_month_11 A (yy + 1)
  let k := A.kOffHalf a11
  let off0 := mm - 11
  let off1 := if off0 < 0 then off0 + 12 else off0
  if b11 - a11 > 365 then
    let leap_off := get_leap_month_offset A a11
    let leap_month0 := leap_off - 2
    let leap_month := if leap_month0 < 0 then leap_month0 + 12 else leap_month0
    if leap ∧ mm ≠ leap_month then Except.error ()
    else
      let off := if leap ∨ off1 ≥ leap_off then off1 + 1 else off1
      Except.ok (jd_to_date (A.nmDay (k + off) + dd - 1))
  else
    if leap then Except.error ()
    else Except.ok (jd_to_date (A.nmDay (k + off1) + dd - 1))

/-- `converter.solar_to_lunar(dd, mm, yy, timezone)`: lookup first, then
astronomical fallback. The timezone argument is only ever passed to the
astronomical tier, so its type is kept abstract. -/
def solar_to_lunar {τ : Type} (tbl : Table) (orc : τ → Astro) (dd mm yy : Int)
    (tz : τ) : Int × Int × Int × Bool :=
  match _solar_to_lunar_lookup tbl dd mm yy with
  | some res => res
  | none => _solar_to_lunar_astro (orc tz) dd mm yy

/-- `converter.lunar_to_solar(day, month, year, leap, timezone)`: a raised
`DateNotExistError` from the lookup tier propagates (`some (error ())`);
only a Python `None` would reach the astronomical fallback. -/
def lunar_to_solar {τ : Type} (tbl : Table) (orc : τ → Astro)
    (day month year : Int) (leap : Bool) (tz : τ) : Except Unit (Int × Int × Int) :=
  match _lunar_to_solar_lookup tbl day month year leap with
  | some res => res
  | none => _lunar_to_solar_astro (orc tz) day month year leap

/-! ## `constants.py`, `solar_terms.py`, `lucky_hours.py` -/

/-- `constants.TIET_KHI`: the 24 Vietnamese solar-term names. -/
def TIET_KHI : List String :=
  ["Xuân phân", "Thanh minh", "Cốc vũ", "Lập hạ", "Tiểu mãn", "Mang chủng",
   "Hạ chí", "Tiểu thử", "Đại thử", "Lập thu", "Xử thử", "Bạch lộ",
   "Thu phân", "Hàn lộ", "Sương giáng", "Lập đông", "Tiểu tuyết", "Đại tuyết",
   "Đông chí", "Tiểu hàn", "Đại hàn", "Lập xuân", "Vũ thủy", "Kinh trập"]

/-- `solar_terms.get_solar_term(jd, timezone)`: the Vietnamese name at index
`segment * 2` of `TIET_KHI`, with the sun-longitude segment supplied by the
oracle (`get_sun_longitude(jd + 1, timezone)` in the source, an integer in
0-11 there, so the list index stays in range). -/
def get_solar_term (A : Astro) (jd : Int) : String :=
  TIET_KHI.getD ((A.sunSeg (jd + 1)).toNat * 2) ""

/-- `constants.CHI`: the 12 Earthly Branch names. -/
def CHI : List String :=
  ["Tý", "Sửu", "Dần", "Mão", "Thìn", "Tỵ", "Ngọ", "Mùi", "Thân", "Dậu", "Tuất", "Hợi"]

/-- `constants.GIO_HOANG_DAO`: lucky-hour bit patterns indexed by
`(chi_of_day % 6)`. -/
def GIO_HOANG_DAO : List String :=
  ["110100101100", "001101001011", "110011010010",
   "101100110100", "001011001101", "010010110011"]

/-- `lucky_hours._HOUR_RANGES`. -/
def HOUR_RANGES : List (Int × Int) :=
  [(23, 1), (1, 3), (3, 5), (5, 7), (7, 9), (9, 11),
   (11, 13), (13, 15), (15, 17), (17, 19), (19, 21), (21, 23)]

/-- Entry built per double-hour by `lucky_hours.get_lucky_hours` (the
source's dict with keys name/start/end/is_lucky). -/
structure LuckyHour where
  name : String
  first_hour : Int
  last_hour : Int
  is_lucky : Bool
deriving DecidableEq

/-- The entry-building loop of `lucky_hours.get_lucky_hours`, for a fixed
pattern string. -/
def hours_from_pattern (pattern : String) : List LuckyHour :=
  (List.range 12).map fun i =>
    let r := HOUR_RANGES.getD i (0, 0)
    ⟨CHI.getD i "", r.1, r.2, pattern.toList.getD i ' ' == '1'⟩

/-- `lucky_hours.get_lucky_hours(jd)`: `chi_of_day = (jd + 1) % 12`, pattern
`GIO_HOANG_DAO[chi_of_day % 6]`, then one entry per double-hour. -/
def get_lucky_hours (jd : Int) : List LuckyHour :=
  hours_from_pattern (GIO_HOANG_DAO.getD ((jd + 1) % 12 % 6).toNat "")

/-! ## Claim-support definitions -/

/-- Consecutiveness of decoded month spans: every entry starts where the
previous one ends (claim C7's chain property). -/
def chainedb : List LunarMonthInfo → Bool
  | [] => true
  | [_] => true
  | a :: b :: rest => (b.jd_start == a.jd_start + a.days) && chainedb (b :: rest)

/-- Every leap entry immediately follows an ordinary entry of the same
month number (claim C7). -/
def leap_follows : List LunarMonthInfo → Bool
  | a :: b :: rest =>
    (!b.is_leap || (!a.is_leap && a.month == b.month)) && leap_follows (b :: rest)
  | _ => true

/-- The first decoded month is not a leap month (claim C7). -/
def head_not_leap : List LunarMonthInfo → Bool
  | [] => true
  | a :: _ => !a.is_leap

/-- Modelled from the spec: the year-code table entry for 2024. The spec
pins Tết 2024 to 10 February 2024 (`solar_to_lunar(10, 2, 2024) ==
(1, 1, 2024, False)`), i.e. a Tết offset of 40 days from 1 January, and
2024 has no leap month (`lunar_to_solar(1, 4, 2024, True, 7.0)` raises);
the spec does not pin 2024's month lengths, which are left as 29 days. -/
def year_code_2024 : Nat := 40 <<< 17

/-- Modelled from the spec: the year-code table entry for 2020. The spec
pins Tết 2020 to 25 January 2020 (offset 24) and an inserted leap month 4
(`solar_to_lunar(23, 5, 2020) == (1, 4, 2020, True)`); month lengths are
not pinned and are left as 29 days. -/
def year_code_2020 : Nat := (24 <<< 17) + 4

/-- Modelled from the spec: a concrete instance of the year-code table
carrying the two spec-pinned entries, used to instantiate witnesses. -/
def table_model : Table := fun y =>
  if y = 2020 then some year_code_2020
  else if y = 2024 then some year_code_2024
  else none

/-- A concrete all-zero oracle record, used to instantiate witnesses. -/
def A0 : Astro := ⟨fun _ => 0, fun _ => 0, fun _ => 0, fun _ => 0, fun _ => 0⟩

/-- A concrete oracle record whose sun-longitude segment is constantly 9
(the winter-solstice segment), used for claim C6. -/
def astro_seg9 : Astro := ⟨fun _ => 0, fun _ => 9, fun _ => 0, fun _ => 0, fun _ => 0⟩

/-! ## Round trip of the JDN arithmetic (claim C4) -/

/-- Arithmetic reading of `is_valid_solar`, in the form `omega` consumes. -/
theorem is_valid_solar_arith (d m y : Int) (h : is_valid_solar d m y = true) :
    1 ≤ m ∧ m ≤ 12 ∧ 1 ≤ d ∧
    ((m = 1 ∨ m = 3 ∨ m = 5 ∨ m = 7 ∨ m = 8 ∨ m = 10 ∨ m = 12) → d ≤ 31) ∧
    ((m = 4 ∨ m = 6 ∨ m = 9 ∨ m = 11) → d ≤ 30) ∧
    (m = 2 → d ≤ 29) ∧
    (m = 2 → ¬((y % 4 = 0 ∧ y % 100 ≠ 0) ∨ y % 400 = 0) → d ≤ 28) := by
  have hA : ¬(m < 1 ∨ m > 12) := by
    intro hc
    simp only [is_valid_solar, if_pos hc] at h
    exact absurd h (by simp)
  have hB : ¬(d < 1) := by
    intro hc
    simp only [is_valid_solar, if_neg hA, if_pos hc] at h
    exact absurd h (by simp)
  simp only [is_valid_solar, if_neg hA, if_neg hB, decide_eq_true_eq] at h
  have hm1 : 1 ≤ m := by omega
  have hm2 : m ≤ 12 := by omega
  have hd1 : 1 ≤ d := by omega
  interval_cases m <;> simp at h <;>
    first
    | omega
    | (split at h <;> rename_i hl <;> simp [is_leap_year] at hl <;> omega)

/-- Evaluation of `jd_to_date_tail` when `c` counts days from 1 March of
(shifted) year `yr`: `c = 365 yr + yr/4 + doy` with `doy` the day-of-year
offset from 1 March. -/
theorem tail_eval (b yr doy : Int)
    (h0 : 0 ≤ doy) (h1 : doy ≤ 365) (h2 : doy = 365 → yr % 4 = 3) :
    jd_to_date_tail b (365 * yr + yr / 4 + doy) =
      (doy - (153 * ((5 * doy + 2) / 153) + 2) / 5 + 1,
       (5 * doy + 2) / 153 + 3 - 12 * ((5 * doy + 2) / 153 / 10),
       b * 100 + yr - 4800 + (5 * doy + 2) / 153 / 10) := by
  obtain ⟨p, t, hpt, ht0, ht1⟩ : ∃ p t, yr = 4 * p + t ∧ 0 ≤ t ∧ t ≤ 3 :=
    ⟨yr / 4, yr % 4, by omega, by omega, by omega⟩
  have hd : (4 * (365 * yr + yr / 4 + doy) + 3) / 1461 = yr := by omega
  simp only [jd_to_date_tail, hd]
  have he : 365 * yr + yr / 4 + doy - 1461 * yr / 4 = doy := by omega
  rw [he]

/-- `jd_to_date` on the Julian-formula branch recovers shifted year and
day-of-year. -/
theorem jd_to_date_julian (jd yr doy : Int)
    (hjd : jd = 365 * yr + yr / 4 + doy - 32082)
    (hle : ¬(jd > 2299160))
    (h0 : 0 ≤ doy) (h1 : doy ≤ 365) (h2 : doy = 365 → yr % 4 = 3) :
    jd_to_date jd =
      (doy - (153 * ((5 * doy + 2) / 153) + 2) / 5 + 1,
       (5 * doy + 2) / 153 + 3 - 12 * ((5 * doy + 2) / 153 / 10),
       yr - 4800 + (5 * doy + 2) / 153 / 10) := by
  rw [jd_to_date, if_neg hle]
  have hc : jd + 32082 = 365 * yr + yr / 4 + doy := by omega
  rw [hc, tail_eval 0 yr doy h0 h1 h2]
  norm_num

/-- `jd_to_date` on the Gregorian-formula branch recovers shifted year and
day-of-year. -/
theorem jd_to_date_greg (jd yr doy : Int)
    (hjd : jd = 365 * yr + yr / 4 - yr / 100 + yr / 400 + doy - 32044)
    (hgt : jd > 2299160)
    (h0 : 0 ≤ doy) (h1 : doy ≤ 365)
    (h2 : doy = 365 → (yr % 4 = 3 ∧ yr % 100 ≠ 99) ∨ yr % 400 = 399) :
    jd_to_date jd =
      (doy - (153 * ((5 * doy + 2) / 153) + 2) / 5 + 1,
       (5 * doy + 2) / 153 + 3 - 12 * ((5 * doy + 2) / 153 / 10),
       yr - 4800 + (5 * doy + 2) / 153 / 10) := by
  simp only [jd_to_date]
  rw [if_pos hgt]
  obtain ⟨q, cc, s, hy, hcc0, hcc1, hs0, hs1⟩ :
      ∃ q cc s, yr = 400 * q + 100 * cc + s ∧ 0 ≤ cc ∧ cc ≤ 3 ∧ 0 ≤ s ∧ s ≤ 99 :=
    ⟨yr / 400, yr % 400 / 100, yr % 100, by omega, by omega, by omega, by omega, by omega⟩
  obtain ⟨u, v, hs, hv0, hv1⟩ : ∃ u v, s = 4 * u + v ∧ 0 ≤ v ∧ v ≤ 3 :=
    ⟨s / 4, s % 4, by omega, by omega, by omega⟩
  have ha4 : yr / 4 = 100 * q + 25 * cc + u := by omega
  have hb100 : yr / 100 = 4 * q + cc := by omega
  have hc400 : yr / 400 = q := by omega
  have hyr4 : yr % 4 = v := by omega
  have hyr100 : yr % 100 = s := by omega
  have hyr400 : yr % 400 = 100 * cc + s := by omega
  have hA : jd + 32044 = 146097 * q + 36524 * cc + 365 * s + u + doy := by omega
  have hb : (4 * (jd + 32044) + 3) / 146097 = 4 * q + cc := by omega
  rw [hb]
  have hu : s / 4 = u := by omega
  have hg : (4 * q + cc) * 146097 / 4 = 146097 * q + 36524 * cc := by omega
  have hc : jd + 32044 - (4 * q + cc) * 146097 / 4 = 365 * s + s / 4 + doy := by omega
  rw [hc]
  have h2s : doy = 365 → s % 4 = 3 := by omega
  rw [tail_eval (4 * q + cc) s doy h0 h1 h2s]
  have hyy : (4 * q + cc) * 100 + s = yr := by omega
  rw [Prod.mk.injEq, Prod.mk.injEq]
  refine ⟨rfl, rfl, by omega⟩
/-- C4 (amended): for every date accepted by the library's own validator
`is_valid_solar`, other than the ten days 5..14 October 1582 skipped by the
Gregorian reform, `jd_to_date (jd_from_date d m y) = (d, m, y)`. -/
theorem C4_jd_roundtrip_amended (d m y : Int) (hv : is_valid_solar d m y = true)
    (hx : ¬(y = 1582 ∧ m = 10 ∧ 5 ≤ d ∧ d ≤ 14)) :
    jd_to_date (jd_from_date d m y) = (d, m, y) := by
  obtain ⟨hm1, hm12, hd1, h31, h30, h29, h28⟩ := is_valid_solar_arith d m y hv
  interval_cases m
  · -- month 1
    simp only [jd_from_date]
    norm_num
    split_ifs with hj
    · rw [jd_to_date_julian _ (y + 4799) (d + 306 - 1) (by omega) ?hle1 (by omega)
          (by omega) (by omega)]
      case hle1 =>
        rcases (by omega : y ≤ 1581 ∨ y = 1582 ∨ 1583 ≤ y) with hc | hc | hc
        · omega
        · subst hc; omega
        · omega
      have hseg : (5 * (d + 306 - 1) + 2) / 153 = 10 := by omega
      rw [hseg]
      simp only [Prod.mk.injEq]
      refine ⟨by omega, by norm_num, by omega⟩
    · rw [jd_to_date_greg _ (y + 4799) (d + 306 - 1) (by omega) (by omega) (by omega)
          (by omega) (by omega)]
      have hseg : (5 * (d + 306 - 1) + 2) / 153 = 10 := by omega
      rw [hseg]
      simp only [Prod.mk.injEq]
      refine ⟨by omega, by norm_num, by omega⟩
  · -- month 2
    simp only [jd_from_date]
    norm_num
    split_ifs with hj
    · rw [jd_to_date_julian _ (y + 4799) (d + 337 - 1) (by omega) ?hle2 (by omega)
          (by omega) (by omega)]
      case hle2 =>
        rcases (by omega : y ≤ 1581 ∨ y = 1582 ∨ 1583 ≤ y) with hc | hc | hc
        · omega
        · subst hc; omega
        · omega
      have hseg : (5 * (d + 337 - 1) + 2) / 153 = 11 := by omega
      rw [hseg]
      simp only [Prod.mk.injEq]
      refine ⟨by omega, by norm_num, by omega⟩
    · rw [jd_to_date_greg _ (y + 4799) (d + 337 - 1) (by omega) (by omega) (by omega)
          (by omega) (by omega)]
      have hseg : (5 * (d + 337 - 1) + 2) / 153 = 11 := by omega
      rw [hseg]
      simp only [Prod.mk.injEq]
      refine ⟨by omega, by norm_num, by omega⟩
  · -- month 3
    simp only [jd_from_date]
    norm_num
    split_ifs with hj
    · rw [jd_to_date_julian _ (y + 4800) (d + 0 - 1) (by omega) ?hle3 (by omega)
          (by omega) (by omega)]
      case hle3 =>
        rcases (by omega : y ≤ 1581 ∨ y = 1582 ∨ 1583 ≤ y) with hc | hc | hc
        · omega
        · subst hc; omega
        · omega
      have hseg : (5 * (d + 0 - 1) + 2) / 153 = 0 := by omega
      rw [hseg]
      simp only [Prod.mk.injEq]
      refine ⟨by omega, by norm_num, by omega⟩
    · rw [jd_to_date_greg _ (y + 4800) (d + 0 - 1) (by omega) (by omega) (by omega)
          (by omega) (by omega)]
      have hseg : (5 * (d + 0 - 1) + 2) / 153 = 0 := by omega
      rw [hseg]
      simp only [Prod.mk.injEq]
      refine ⟨by omega, by norm_num, by omega⟩
  · -- month 4
    simp only [jd_from_date]
    norm_num
    split_ifs with hj
    · rw [jd_to_date_julian _ (y + 4800) (d + 31 - 1) (by omega) ?hle4 (by omega)
          (by omega) (by omega)]
      case hle4 =>
        rcases (by omega : y ≤ 1581 ∨ y = 1582 ∨ 1583 ≤ y) with hc | hc | hc
        · omega
        · subst hc; omega
        · omega
      have hseg : (5 * (d + 31 - 1) + 2) / 153 = 1 := by omega
      rw [hseg]
      simp only [Prod.mk.injEq]
      refine ⟨by omega, by norm_num, by omega⟩
    · rw [jd_to_date_greg _ (y + 4800) (d + 31 - 1) (by omega) (by omega) (by omega)
          (by omega) (by omega)]
      have hseg : (5 * (d + 31 - 1) + 2) / 153 = 1 := by omega
      rw [hseg]
      simp only [Prod.mk.injEq]
      refine ⟨by omega, by norm_num, by omega⟩
  · -- month 5
    simp only [jd_from_date]
    norm_num
    split_ifs with hj
    · rw [jd_to_date_julian _ (y + 4800) (d + 61 - 1) (by omega) ?hle5 (by omega)
          (by omega) (by omega)]
      case hle5 =>
        rcases (by omega : y ≤ 1581 ∨ y = 1582 ∨ 1583 ≤ y) with hc | hc | hc
        · omega
        · subst hc; omega
        · omega
      have hseg : (5 * (d + 61 - 1) + 2) / 153 = 2 := by omega
      rw [hseg]
      simp only [Prod.mk.injEq]
      refine ⟨by omega, by norm_num, by omega⟩
    · rw [jd_to_date_greg _ (y + 4800) (d + 61 - 1) (by omega) (by omega) (by omega)
          (by omega) (by omega)]
      have hseg : (5 * (d + 61 - 1) + 2) / 153 = 2 := by omega
      rw [hseg]
      simp only [Prod.mk.injEq]
      refine ⟨by omega, by norm_num, by omega⟩
  · -- month 6
    simp only [jd_from_date]
    norm_num
    split_ifs with hj
    · rw [jd_to_date_julian _ (y + 4800) (d + 92 - 1) (by omega) ?hle6 (by omega)
          (by omega) (by omega)]
      case hle6 =>
        rcases (by omega : y ≤ 1581 ∨ y = 1582 ∨ 1583 ≤ y) with hc | hc | hc
        · omega
        · subst hc; omega
        · omega
      have hseg : (5 * (d + 92 - 1) + 2) / 153 = 3 := by omega
      rw [hseg]
      simp only [Prod.mk.injEq]
      refine ⟨by omega, by norm_num, by omega⟩
    · rw [jd_to_date_greg _ (y + 4800) (d + 92 - 1) (by omega) (by omega) (by omega)
          (by omega) (by omega)]
      have hseg : (5 * (d + 92 - 1) + 2) / 153 = 3 := by omega
      rw [hseg]
      simp only [Prod.mk.injEq]
      refine ⟨by omega, by norm_num, by omega⟩
  · -- month 7
    simp only [jd_from_date]
    norm_num
    split_ifs with hj
    · rw [jd_to_date_julian _ (y + 4800) (d + 122 - 1) (by omega) ?hle7 (by omega)
          (by omega) (by omega)]
      case hle7 =>
        rcases (by omega : y ≤ 1581 ∨ y = 1582 ∨ 1583 ≤ y) with hc | hc | hc
        · omega
        · subst hc; omega
        · omega
      have hseg : (5 * (d + 122 - 1) + 2) / 153 = 4 := by omega
      rw [hseg]
      simp only [Prod.mk.injEq]
      refine ⟨by omega, by norm_num, by omega⟩
    · rw [jd_to_date_greg _ (y + 4800) (d + 122 - 1) (by omega) (by omega) (by omega)
          (by omega) (by omega)]
      have hseg : (5 * (d + 122 - 1) + 2) / 153 = 4 := by omega
      rw [hseg]
      simp only [Prod.mk.injEq]
      refine ⟨by omega, by norm_num, by omega⟩
  · -- month 8
    simp only [jd_from_date]
    norm_num
    split_ifs with hj
    · rw [jd_to_date_julian _ (y + 4800) (d + 153 - 1) (by omega) ?hle8 (by omega)
          (by omega) (by omega)]
      case hle8 =>
        rcases (by omega : y ≤ 1581 ∨ y = 1582 ∨ 1583 ≤ y) with hc | hc | hc
        · omega
        · subst hc; omega
        · omega
      have hseg : (5 * (d + 153 - 1) + 2) / 153 = 5 := by omega
      rw [hseg]
      simp only [Prod.mk.injEq]
      refine ⟨by omega, by norm_num, by omega⟩
    · rw [jd_to_date_greg _ (y + 4800) (d + 153 - 1) (by omega) (by omega) (by omega)
          (by omega) (by omega)]
      have hseg : (5 * (d + 153 - 1) + 2) / 153 = 5 := by omega
      rw [hseg]
      simp only [Prod.mk.injEq]
      refine ⟨by omega, by norm_num, by omega⟩
  · -- month 9
    simp only [jd_from_date]
    norm_num
    split_ifs with hj
    · rw [jd_to_date_julian _ (y + 4800) (d + 184 - 1) (by omega) ?hle9 (by omega)
          (by omega) (by omega)]
      case hle9 =>
        rcases (by omega : y ≤ 1581 ∨ y = 1582 ∨ 1583 ≤ y) with hc | hc | hc
        · omega
        · subst hc; omega
        · omega
      have hseg : (5 * (d + 184 - 1) + 2) / 153 = 6 := by omega
      rw [hseg]
      simp only [Prod.mk.injEq]
      refine ⟨by omega, by norm_num, by omega⟩
    · rw [jd_to_date_greg _ (y + 4800) (d + 184 - 1) (by omega) (by omega) (by omega)
          (by omega) (by omega)]
      have hseg : (5 * (d + 184 - 1) + 2) / 153 = 6 := by omega
      rw [hseg]
      simp only [Prod.mk.injEq]
      refine ⟨by omega, by norm_num, by omega⟩
  · -- month 10
    simp only [jd_from_date]
    norm_num
    split_ifs with hj
    · rw [jd_to_date_julian _ (y + 4800) (d + 214 - 1) (by omega) ?hle10 (by omega)
          (by omega) (by omega)]
      case hle10 =>
        rcases (by omega : y ≤ 1581 ∨ y = 1582 ∨ 1583 ≤ y) with hc | hc | hc
        · omega
        · subst hc; omega
        · omega
      have hseg : (5 * (d + 214 - 1) + 2) / 153 = 7 := by omega
      rw [hseg]
      simp only [Prod.mk.injEq]
      refine ⟨by omega, by norm_num, by omega⟩
    · rw [jd_to_date_greg _ (y + 4800) (d + 214 - 1) (by omega) (by omega) (by omega)
          (by omega) (by omega)]
      have hseg : (5 * (d + 214 - 1) + 2) / 153 = 7 := by omega
      rw [hseg]
      simp only [Prod.mk.injEq]
      refine ⟨by omega, by norm_num, by omega⟩
  · -- month 11
    simp only [jd_from_date]
    norm_num
    split_ifs with hj
    · rw [jd_to_date_julian _ (y + 4800) (d + 245 - 1) (by omega) ?hle11 (by omega)
          (by omega) (by omega)]
      case hle11 =>
        rcases (by omega : y ≤ 1581 ∨ y = 1582 ∨ 1583 ≤ y) with hc | hc | hc
        · omega
        · subst hc; omega
        · omega
      have hseg : (5 * (d + 245 - 1) + 2) / 153 = 8 := by omega
      rw [hseg]
      simp only [Prod.mk.injEq]
      refine ⟨by omega, by norm_num, by omega⟩
    · rw [jd_to_date_greg _ (y + 4800) (d + 245 - 1) (by omega) (by omega) (by omega)
          (by omega) (by omega)]
      have hseg : (5 * (d + 245 - 1) + 2) / 153 = 8 := by omega
      rw [hseg]
      simp only [Prod.mk.injEq]
      refine ⟨by omega, by norm_num, by omega⟩
  · -- month 12
    simp only [jd_from_date]
    norm_num
    split_ifs with hj
    · rw [jd_to_date_julian _ (y + 4800) (d + 275 - 1) (by omega) ?hle12 (by omega)
          (by omega) (by omega)]
      case hle12 =>
        rcases (by omega : y ≤ 1581 ∨ y = 1582 ∨ 1583 ≤ y) with hc | hc | hc
        · omega
        · subst hc; omega
        · omega
      have hseg : (5 * (d + 275 - 1) + 2) / 153 = 9 := by omega
      rw [hseg]
      simp only [Prod.mk.injEq]
      refine ⟨by omega, by norm_num, by omega⟩
    · rw [jd_to_date_greg _ (y + 4800) (d + 275 - 1) (by omega) (by omega) (by omega)
          (by omega) (by omega)]
      have hseg : (5 * (d + 275 - 1) + 2) / 153 = 9 := by omega
      rw [hseg]
      simp only [Prod.mk.injEq]
      refine ⟨by omega, by norm_num, by omega⟩

/-- C4 witness: the amended round trip at the concrete valid date
29 February 2024. -/
theorem C4_jd_roundtrip_witness :
    is_valid_solar 29 2 2024 = true ∧ jd_to_date (jd_from_date 29 2 2024) = (29, 2, 2024) :=
  ⟨by decide, C4_jd_roundtrip_amended 29 2 2024 (by decide) (by decide)⟩

/-- C4 counterexample: 10 October 1582 is accepted by the library's
validator but does not round trip — the forward conversion takes the
Julian branch while the inverse takes the Gregorian branch, landing ten
days later. -/
theorem C4_jd_roundtrip_counterexample :
    is_valid_solar 10 10 1582 = true ∧
      jd_to_date (jd_from_date 10 10 1582) = (20, 10, 1582) ∧
      jd_to_date (jd_from_date 10 10 1582) ≠ (10, 10, 1582) := by
  refine ⟨by decide, by decide, by decide⟩

/-! ## Lookup-tier error behaviour (claims C3, C5, C1) -/

/-- For a year missing from the table, `_lunar_to_solar_lookup` raises
`DateNotExistError` instead of signalling fallback, so `lunar_to_solar`
raises no matter what the astronomical tier would return. -/
theorem lunar_to_solar_missing_year {τ : Type} (tbl : Table) (orc : τ → Astro)
    (day month year : Int) (leap : Bool) (tz : τ) (h : tbl year = none) :
    lunar_to_solar tbl orc day month year leap tz = Except.error () := by
  simp [lunar_to_solar, _lunar_to_solar_lookup, _get_lunar_year_data, h]

/-- C3: contrary to the claim, for a lunar year outside the table's span the
lookup tier raises `DateNotExistError` (it never signals internally), so
`lunar_to_solar` errors instead of returning the astronomical result — for
every table missing that year, every oracle, and every date. -/
theorem C3_lookup_raises_out_of_range {τ : Type} (tbl : Table) (orc : τ → Astro)
    (day month year : Int) (leap : Bool) (tz : τ) (h : tbl year = none) :
    lunar_to_solar tbl orc day month year leap tz = Except.error () :=
  lunar_to_solar_missing_year tbl orc day month year leap tz h

/-- C3 witness: the concrete out-of-range year 3000 errors under the
spec-modelled table. -/
theorem C3_witness :
    lunar_to_solar table_model (fun _ : Unit => A0) 1 1 3000 false () = Except.error () :=
  C3_lookup_raises_out_of_range table_model (fun _ : Unit => A0) 1 1 3000 false ()
    (by decide)

/-! ## Timezone noninterference (claim C9) -/

/-- C9: when the lookup tier succeeds, `solar_to_lunar` returns its result
unchanged for every timezone value — the lookup tier never consults the
timezone. -/
theorem C9_timezone_noninterference {τ : Type} (tbl : Table) (orc : τ → Astro)
    (dd mm yy : Int) (tz1 tz2 : τ) (r : Int × Int × Int × Bool)
    (h : _solar_to_lunar_lookup tbl dd mm yy = some r) :
    solar_to_lunar tbl orc dd mm yy tz1 = solar_to_lunar tbl orc dd mm yy tz2 := by
  simp [solar_to_lunar, h]

/-- C9 witness: 10 February 2024 under the spec-modelled table resolves by
lookup, and two distinct timezone values give the same answer. -/
theorem C9_witness :
    _solar_to_lunar_lookup table_model 10 2 2024 = some (1, 1, 2024, false) ∧
      solar_to_lunar table_model (fun _ : Bool => A0) 10 2 2024 true =
        solar_to_lunar table_model (fun _ : Bool => A0) 10 2 2024 false :=
  ⟨by decide,
   C9_timezone_noninterference table_model (fun _ : Bool => A0) 10 2 2024 true false
     (1, 1, 2024, false) (by decide)⟩

/-! ## Solar terms (claim C6) -/

/-- C6 (amended): at sun-longitude segment 9 (term index 18) the function
returns the Vietnamese name `"Đông chí"` — the table indexed is `TIET_KHI`,
not the English `SOLAR_TERMS_EN`. -/
theorem C6_solar_term_amended (A : Astro) (jd : Int) (h : A.sunSeg (jd + 1) = 9) :
    get_solar_term A jd = "Đông chí" := by
  simp only [get_solar_term, h]
  decide

/-- C6 witness: a concrete oracle at segment 9 on 21 December 2024. -/
theorem C6_witness :
    astro_seg9.sunSeg (jd_from_date 21 12 2024 + 1) = 9 ∧
      get_solar_term astro_seg9 (jd_from_date 21 12 2024) = "Đông chí" :=
  ⟨rfl, C6_solar_term_amended astro_seg9 (jd_from_date 21 12 2024) rfl⟩

/-- C6 counterexample: even granting the claim's own segment index 9 / term
index 18, `get_solar_term` on 21 December 2024 returns `"Đông chí"`, not
`"Winter Solstice"` — which indeed occurs nowhere in `TIET_KHI`. -/
theorem C6_counterexample :
    get_solar_term astro_seg9 (jd_from_date 21 12 2024) ≠ "Winter Solstice" ∧
      "Winter Solstice" ∉ TIET_KHI := by
  refine ⟨by decide, by decide⟩

/-! ## Lucky hours (claim C8) -/

/-- C8: for every Julian Day Number, `get_lucky_hours` returns exactly 12
entries of which exactly 6 are lucky. -/
theorem C8_lucky_hours_partition (jd : Int) :
    (get_lucky_hours jd).length = 12 ∧
      ((get_lucky_hours jd).filter (fun h => h.is_lucky)).length = 6 := by
  have h6 : (jd + 1) % 12 % 6 = 0 ∨ (jd + 1) % 12 % 6 = 1 ∨ (jd + 1) % 12 % 6 = 2 ∨
      (jd + 1) % 12 % 6 = 3 ∨ (jd + 1) % 12 % 6 = 4 ∨ (jd + 1) % 12 % 6 = 5 := by
    omega
  rcases h6 with h | h | h | h | h | h <;> rw [get_lucky_hours, h] <;> decide

/-- Leap entries produced by `build_months` always carry the month number
`leap_idx`, so a leap request for a different month number matches no
entry. -/
theorem build_months_no_leap_match (idx : Nat) (len : Int) (f : Nat → Int)
    (mm : Int) (h : (idx : Int) ≠ mm) :
    ∀ (ms : List Nat) (cur : Int),
      (build_months idx len f ms cur).find?
        (fun e => e.month == mm && e.is_leap == true) = none := by
  intro ms
  induction ms with
  | nil => intro cur; rfl
  | cons a rest ih =>
    intro cur
    simp only [build_months]
    split_ifs with ha
    · subst ha
      rw [List.find?_cons_of_neg _ (by simp), List.find?_cons_of_neg _ (by simp [h])]
      exact ih _
    · rw [List.find?_cons_of_neg _ (by simp)]
      exact ih _

/-- C5: requesting `is_leap = True` for a month number different from the
year code's leap-month index (in particular for a year with no leap month
at all, index 0) raises `DateNotExistError`. -/
theorem C5_leap_request_raises {τ : Type} (tbl : Table) (orc : τ → Astro)
    (dd mm yy : Int) (tz : τ) (code : Nat)
    (hy : tbl yy = some code) (hne : ((code &&& 15 : Nat) : Int) ≠ mm) :
    lunar_to_solar tbl orc dd mm yy true tz = Except.error () := by
  simp only [lunar_to_solar, _lunar_to_solar_lookup, _get_lunar_year_data, hy]
  rw [build_months_no_leap_match (code &&& 15) _ _ mm hne]

/-- C5 witness: `lunar_to_solar(1, 4, 2024, True)` errors under the
spec-modelled table (2024 has leap-month index 0). -/
theorem C5_witness :
    lunar_to_solar table_model (fun _ : Unit => A0) 1 4 2024 true () = Except.error () :=
  C5_leap_request_raises table_model (fun _ : Unit => A0) 1 4 2024 () year_code_2024
    (by decide) (by decide)

/-- Every month entry decoded from a year code is 29 or 30 days long. -/
theorem build_months_days (idx : Nat) (len : Int) (f : Nat → Int)
    (hlen : len = 29 ∨ len = 30) (hf : ∀ m, f m = 29 ∨ f m = 30) :
    ∀ (ms : List Nat) (cur : Int) (e : LunarMonthInfo),
      e ∈ build_months idx len f ms cur → e.days = 29 ∨ e.days = 30 := by
  intro ms
  induction ms with
  | nil => intro cur e he; simp [build_months] at he
  | cons a rest ih =>
    intro cur e he
    simp only [build_months] at he
    split_ifs at he with ha
    all_goals simp only [List.mem_cons] at he
    · rcases he with rfl | rfl | he
      · exact hf a
      · exact hlen
      · exact ih _ _ he
    · rcases he with rfl | he
      · exact hf a
      · exact ih _ _ he

/-- Every month entry returned by `_get_lunar_year_data` is 29 or 30 days
long. -/
theorem month_days (tbl : Table) (yy : Int) (e : LunarMonthInfo)
    (he : e ∈ (_get_lunar_year_data tbl yy).2) : e.days = 29 ∨ e.days = 30 := by
  rcases htbl : tbl yy with _ | code
  · simp [_get_lunar_year_data, htbl] at he
  · simp only [_get_lunar_year_data, htbl] at he
    refine build_months_days _ _ _ ?_ ?_ _ _ _ he
    · split <;> simp
    · intro m
      simp only [reg_month_len]
      split <;> simp

/-- C10: `lunar_to_solar`'s lookup tier has no lower bound check on the day:
when an entry matches `(month, is_leap)`, any day not exceeding the month's
length — including every day ≤ 0 — converts to
`jd_to_date (jd_start + day - 1)`, and only days exceeding the length raise
`DateNotExistError`. -/
theorem C10_day_lower_bound_unchecked {τ : Type} (tbl : Table) (orc : τ → Astro)
    (dd mm yy : Int) (leap : Bool) (tz : τ) (mi : LunarMonthInfo)
    (hfind : ((_get_lunar_year_data tbl yy).2).find?
        (fun e => e.month == mm && e.is_leap == leap) = some mi) :
    (dd ≤ 0 → lunar_to_solar tbl orc dd mm yy leap tz =
        Except.ok (jd_to_date (mi.jd_start + dd - 1))) ∧
    (dd ≤ mi.days → lunar_to_solar tbl orc dd mm yy leap tz =
        Except.ok (jd_to_date (mi.jd_start + dd - 1))) ∧
    (mi.days < dd → lunar_to_solar tbl orc dd mm yy leap tz = Except.error ()) := by
  have hdays : mi.days = 29 ∨ mi.days = 30 :=
    month_days tbl yy mi (List.mem_of_find?_eq_some hfind)
  simp only [lunar_to_solar, _lunar_to_solar_lookup, hfind]
  refine ⟨fun hd => ?_, fun hd => ?_, fun hd => ?_⟩
  · rw [if_neg (by omega)]
  · rw [if_neg (by omega)]
  · rw [if_pos (by omega)]

/-- C10 witness: day 0 of lunar month 1/2024 converts to the solar day just
before Tết (9 February 2024) instead of raising. -/
theorem C10_witness :
    ((_get_lunar_year_data table_model 2024).2).find?
        (fun e => e.month == (1 : Int) && e.is_leap == false) =
      some ⟨1, 29, false, 2460351⟩ ∧
    lunar_to_solar table_model (fun _ : Unit => A0) 0 1 2024 false () =
      Except.ok (jd_to_date (2460351 + 0 - 1)) ∧
    jd_to_date (2460351 + 0 - 1) = (9, 2, 2024) :=
  ⟨by decide,
   (C10_day_lower_bound_unchecked table_model (fun _ : Unit => A0) 0 1 2024 false ()
       ⟨1, 29, false, 2460351⟩ (by decide)).1 (by decide),
   by decide⟩

/-- The lunar year returned by the astronomical solar-to-lunar conversion is
always within one of the input solar year, for every oracle. -/
theorem astro_year_mem (A : Astro) (dd mm yy : Int) :
    (_solar_to_lunar_astro A dd mm yy).2.2.1 = yy - 1 ∨
    (_solar_to_lunar_astro A dd mm yy).2.2.1 = yy ∨
    (_solar_to_lunar_astro A dd mm yy).2.2.1 = yy + 1 := by
  simp only [_solar_to_lunar_astro]
  split_ifs <;> simp

/-- C1: the round trip claimed by the spec fails for the solar date
1 January 1000 (and any year whose neighbourhood the table does not cover):
`solar_to_lunar` falls back to the astronomical tier, whose lunar year is
within one of 1000, and `lunar_to_solar` then raises `DateNotExistError`
from its lookup tier instead of falling back — for every table missing
years 999-1001 and every astronomical oracle. -/
theorem C1_roundtrip_bug {τ : Type} (tbl : Table) (orc : τ → Astro) (tz : τ)
    (h999 : tbl 999 = none) (h1000 : tbl 1000 = none) (h1001 : tbl 1001 = none) :
    lunar_to_solar tbl orc (solar_to_lunar tbl orc 1 1 1000 tz).1
        (solar_to_lunar tbl orc 1 1 1000 tz).2.1
        (solar_to_lunar tbl orc 1 1 1000 tz).2.2.1
        (solar_to_lunar tbl orc 1 1 1000 tz).2.2.2 tz = Except.error () ∧
    lunar_to_solar tbl orc (solar_to_lunar tbl orc 1 1 1000 tz).1
        (solar_to_lunar tbl orc 1 1 1000 tz).2.1
        (solar_to_lunar tbl orc 1 1 1000 tz).2.2.1
        (solar_to_lunar tbl orc 1 1 1000 tz).2.2.2 tz ≠ Except.ok (1, 1, 1000) := by
  have e1 : _get_lunar_year_data tbl 1000 = (0, []) := by
    simp [_get_lunar_year_data, h1000]
  have hlk : _solar_to_lunar_lookup tbl 1 1 1000 = none := by
    simp only [_solar_to_lunar_lookup, e1]
    rw [if_neg (by decide)]
    rfl
  have hs : solar_to_lunar tbl orc 1 1 1000 tz = _solar_to_lunar_astro (orc tz) 1 1 1000 := by
    simp [solar_to_lunar, hlk]
  rw [hs]
  have herr :
      lunar_to_solar tbl orc (_solar_to_lunar_astro (orc tz) 1 1 1000).1
        (_solar_to_lunar_astro (orc tz) 1 1 1000).2.1
        (_solar_to_lunar_astro (orc tz) 1 1 1000).2.2.1
        (_solar_to_lunar_astro (orc tz) 1 1 1000).2.2.2 tz = Except.error () := by
    rcases astro_year_mem (orc tz) 1 1 1000 with hy | hy | hy <;> rw [hy] <;>
      exact lunar_to_solar_missing_year tbl orc _ _ _ _ tz (by norm_num [h999, h1000, h1001])
  exact ⟨herr, by rw [herr]; exact fun hc => Except.noConfusion hc⟩

/-- C1 witness: the broken round trip at 1 January 1000 under the
spec-modelled table and the all-zero oracle. -/
theorem C1_witness :
    lunar_to_solar table_model (fun _ : Unit => A0)
        (solar_to_lunar table_model (fun _ : Unit => A0) 1 1 1000 ()).1
        (solar_to_lunar table_model (fun _ : Unit => A0) 1 1 1000 ()).2.1
        (solar_to_lunar table_model (fun _ : Unit => A0) 1 1 1000 ()).2.2.1
        (solar_to_lunar table_model (fun _ : Unit => A0) 1 1 1000 ()).2.2.2 () =
      Except.error () :=
  (C1_roundtrip_bug table_model (fun _ : Unit => A0) () (by decide) (by decide)
    (by decide)).1

/-- C7: decoding a year code with leap-month index 1-12 yields exactly 13
months with exactly one leap entry, placed right after the same-numbered
ordinary month, and consecutive start JDNs; an index-0 code yields 12
months, none leap, also consecutive. -/
theorem C7_year_decode_invariants (tbl : Table) (year : Int) (code : Nat)
    (h : tbl year = some code) :
    (1 ≤ code &&& 15 → code &&& 15 ≤ 12 →
      (_get_lunar_year_data tbl year).2.length = 13 ∧
      ((_get_lunar_year_data tbl year).2.filter (fun e => e.is_leap)).length = 1 ∧
      head_not_leap (_get_lunar_year_data tbl year).2 = true ∧
      leap_follows (_get_lunar_year_data tbl year).2 = true ∧
      chainedb (_get_lunar_year_data tbl year).2 = true) ∧
    (code &&& 15 = 0 →
      (_get_lunar_year_data tbl year).2.length = 12 ∧
      ((_get_lunar_year_data tbl year).2.filter (fun e => e.is_leap)).length = 0 ∧
      chainedb (_get_lunar_year_data tbl year).2 = true) := by
  simp only [_get_lunar_year_data, h]
  generalize code &&& 15 = n
  generalize (if (code >>> 16) &&& 1 = 1 then (30 : Int) else 29) = L
  generalize reg_month_len code = f
  generalize jd_from_date 1 1 year + ((code >>> 17 : Nat) : Int) = cur
  constructor
  · intro h1 h2
    interval_cases n <;>
      simp [build_months, chainedb, leap_follows, head_not_leap]
  · intro h0
    subst h0
    simp [build_months, chainedb, leap_follows]

/-- C7 witness: the spec-modelled codes for 2020 (leap month 4) and 2024
(no leap month). -/
theorem C7_witness :
    ((_get_lunar_year_data table_model 2020).2.length = 13 ∧
     ((_get_lunar_year_data table_model 2020).2.filter (fun e => e.is_leap)).length = 1 ∧
     head_not_leap (_get_lunar_year_data table_model 2020).2 = true ∧
     leap_follows (_get_lunar_year_data table_model 2020).2 = true ∧
     chainedb (_get_lunar_year_data table_model 2020).2 = true) ∧
    ((_get_lunar_year_data table_model 2024).2.length = 12 ∧
     ((_get_lunar_year_data table_model 2024).2.filter (fun e => e.is_leap)).length = 0 ∧
     chainedb (_get_lunar_year_data table_model 2024).2 = true) :=
  ⟨(C7_year_decode_invariants table_model 2020 year_code_2020 (by decide)).1 (by decide)
     (by decide),
   (C7_year_decode_invariants table_model 2024 year_code_2024 (by decide)).2 (by decide)⟩
